import Mathlib

/-!
Verification development for the court-side remote-control agent
(`local_python/court_client.py`).  The agent keeps a process table
`current_processes : Dict[str, subprocess.Popen]`, receives JSON command
frames over a websocket, dispatches them to handlers, and acknowledges
each command id.  The definitions below are a shallow embedding of the
relevant handlers; environment-dependent outcomes (ffmpeg availability,
RTSP probe result, whether the spawned process survives the settle
window, the wall-clock timestamp, the OS pid) are passed in explicitly
as an `Env` record.
-/

/-- Status of a managed external process: `running` models
`process.poll() is None`; `exited code` models a finished process with
the given return code. -/
inductive ProcStatus where
  | running
  | exited (code : Int)
deriving DecidableEq, Repr

/-- An entry of the agent's process table: the OS pid together with the
process status. -/
structure Proc where
  pid : Nat
  status : ProcStatus
deriving DecidableEq, Repr

/-- Whether the process is still running (`poll() is None`). -/
def Proc.isRunning (p : Proc) : Bool :=
  p.status = ProcStatus.running

/-- The process table `self.current_processes`, embedded as an
association list from string keys to processes.  Python dict semantics
(one value per key) is captured by the `wfTable` predicate below. -/
abbrev Table := List (String × Proc)

/-- Keys of the process table. -/
def tableKeys (t : Table) : List String :=
  t.map Prod.fst

/-- Well-formedness: a Python dict holds each key at most once. -/
def wfTable (t : Table) : Prop :=
  (tableKeys t).Nodup

instance (t : Table) : Decidable (wfTable t) :=
  inferInstanceAs (Decidable (tableKeys t).Nodup)

/-- Dictionary lookup `self.current_processes.get(key)` /
`key in self.current_processes`. -/
def lookupProc : Table → String → Option Proc
  | [], _ => none
  | (k, p) :: rest, key => if k = key then some p else lookupProc rest key

/-- Membership test `key in self.current_processes`. -/
def containsKey (t : Table) (key : String) : Bool :=
  (lookupProc t key).isSome

/-- Deletion `del self.current_processes[key]` (no-op when the key is
absent). -/
def eraseProc (t : Table) (key : String) : Table :=
  t.filter (fun kp => kp.1 ≠ key)

/-- Assignment `self.current_processes[key] = p`: replaces the value in
place when the key is present, otherwise appends the new binding. -/
def insertProc (t : Table) (key : String) (p : Proc) : Table :=
  if containsKey t key then
    t.map (fun kp => if kp.1 = key then (key, p) else kp)
  else
    t ++ [(key, p)]

/-- Number of table entries under `key` that are still running; for the
broadcast-slot invariant this is used with key `"live_stream"`. -/
def countKeyRunning (t : Table) (key : String) : Nat :=
  (t.filter (fun kp => kp.1 == key && kp.2.isRunning)).length

/-- Optional command metadata `meta`: `duration`, `quality`, `platform`,
`stream_key`, each absent or present (`some ""` models the key being
present and bound to the empty string). -/
structure Meta where
  duration : Option Nat
  quality : Option String
  platform : Option String
  streamKey : Option String
deriving DecidableEq, Repr

/-- The default `{}` used by `data.get('meta', {})`. -/
def defaultMeta : Meta :=
  ⟨none, none, none, none⟩

/-- A parsed inbound command frame `{commandId, cmd, by, meta}`.
`issuer` models the `by` field. -/
structure CommandMsg where
  commandId : Option String
  cmd : Option String
  issuer : Option String
  meta : Option Meta
deriving DecidableEq, Repr

/-- The configuration entries the handlers consult. -/
structure Config where
  recordingsDir : String
  youtubeStreamKey : Option String
  rtspUrl : String
deriving DecidableEq, Repr

/-- Environment-dependent outcomes of one handler invocation. -/
structure Env where
  ffmpegAvailable : Bool
  rtspOk : Bool
  timestamp : String
  newPid : Nat
  recordAlive : Bool
  streamAlive : Bool
  exitCode : Int
deriving DecidableEq, Repr

/-- Python truthiness of `stream_key` in `if not stream_key:` — `None`
and the empty string are falsy. -/
def keyTruthy : Option String → Bool
  | none => false
  | some s => s ≠ ""

/-- Resolution `meta.get('stream_key', self.config.get('youtube_stream_key'))`:
the configured default is consulted only when the `stream_key` field is
absent from `meta`. -/
def resolveStreamKey (cfg : Config) (m : Meta) : Option String :=
  match m.streamKey with
  | some v => some v
  | none => cfg.youtubeStreamKey

/-- Output filename `f"record_{timestamp}_{user_id}.mp4"`. -/
def recordFileName (ts uid : String) : String :=
  "record_" ++ ts ++ "_" ++ uid ++ ".mp4"

/-- Output filename `f"test_record_{timestamp}_{user_id}.txt"`. -/
def testRecordFileName (ts uid : String) : String :=
  "test_record_" ++ ts ++ "_" ++ uid ++ ".txt"

/-- Log filename `f"test_stream_{timestamp}_{platform}.log"`. -/
def testStreamFileName (ts platform : String) : String :=
  "test_stream_" ++ ts ++ "_" ++ platform ++ ".log"

/-- Filesystem paths are modelled as component lists, mirroring
`os.path.join`: `os.path.join(recordings_dir, fname)`. -/
def recordOutputPath (dir ts uid : String) : List String :=
  [dir, recordFileName ts uid]

/-- Path of the diagnostic-capture output file: written directly into
the recordings directory. -/
def testRecordOutputPath (dir ts uid : String) : List String :=
  [dir, testRecordFileName ts uid]

/-- Path of the diagnostic-broadcast log file:
`os.path.join(os.path.join(recordings_dir, 'logs'), fname)`. -/
def testStreamLogPath (dir ts platform : String) : List String :=
  [dir, "logs", testStreamFileName ts platform]

/-- Conversion of a whole-second duration to (hours, minutes, seconds),
mirroring `duration // 3600`, `(duration % 3600) // 60`,
`duration % 60`. -/
def durationHMS (d : Nat) : Nat × Nat × Nat :=
  (d / 3600, (d % 3600) / 60, d % 60)

/-- Zero padding of `f"{n:02d}"` for a natural number. -/
def pad2 (n : Nat) : String :=
  if n < 10 then "0" ++ toString n else toString n

/-- The encoder duration argument
`f"{hours:02d}:{minutes:02d}:{seconds:02d}"`. -/
def durationStr (d : Nat) : String :=
  pad2 (durationHMS d).1 ++ ":" ++ pad2 (durationHMS d).2.1 ++ ":" ++ pad2 (durationHMS d).2.2

/-- Record of one `subprocess.Popen` call performed by a handler: the
table key it is (to be) registered under, the output path it writes (for
file-producing jobs), the `-t` duration argument (for bounded captures),
and the pid. -/
structure Launch where
  key : String
  outputPath : Option (List String)
  durationArg : Option String
  pid : Nat
deriving DecidableEq, Repr

/-- Result of one command handler: the updated process table, the
boolean the handler returns, the pids it terminated, and the processes
it spawned. -/
structure HRes where
  table : Table
  ok : Bool
  killed : List Nat
  launched : List Launch
deriving DecidableEq, Repr

/-- Boolean prefix test on character lists, used to model Python's
`str.startswith`. -/
def leadChars : List Char → List Char → Bool
  | [], _ => true
  | _ :: _, [] => false
  | c :: cs, d :: ds => c == d && leadChars cs ds

/-- Python's `key.startswith(pre)`. -/
def strStartsWith (s pre : String) : Bool :=
  leadChars pre.data s.data

/-- Core of `_handle_stop_record`: every entry whose key starts with
`record_` and whose process is still running is terminated and removed;
the handler then returns `True`. -/
def stopRecordOp (t : Table) : Table × Bool × List Nat :=
  let victims := t.filter (fun kp => strStartsWith kp.1 "record_" && kp.2.isRunning)
  (t.filter (fun kp => !(strStartsWith kp.1 "record_" && kp.2.isRunning)), true,
    victims.map (fun kp => kp.2.pid))

/-- Core of `_handle_stop_stream`: if the `live_stream` entry exists and
is still running it is terminated and removed and the handler returns
`True`; otherwise the table is untouched and the handler still returns
`True` ("No active live stream to stop"). -/
def stopStreamOp (t : Table) : Table × Bool × List Nat :=
  match lookupProc t "live_stream" with
  | some p =>
    if p.isRunning then (eraseProc t "live_stream", true, [p.pid])
    else (t, true, [])
  | none => (t, true, [])

/-- Handler `_handle_stop_record`. -/
def handleStopRecord (t : Table) : HRes :=
  let r := stopRecordOp t
  ⟨r.1, r.2.1, r.2.2, []⟩

/-- Handler `_handle_stop_stream`. -/
def handleStopStream (t : Table) : HRes :=
  let r := stopStreamOp t
  ⟨r.1, r.2.1, r.2.2, []⟩

/-- Handler `_handle_start_record`: check ffmpeg, probe the RTSP feed,
spawn ffmpeg writing `record_<ts>_<issuer>.mp4`, register under
`record_<ts>`, wait a 2s settle window, and keep the entry only if the
process is still alive. -/
def handleStartRecord (env : Env) (cfg : Config) (msg : CommandMsg) (t : Table) : HRes :=
  let m := msg.meta.getD defaultMeta
  let duration := m.duration.getD 1800
  let uid := msg.issuer.getD "unknown"
  if !env.ffmpegAvailable then ⟨t, false, [], []⟩
  else if !env.rtspOk then ⟨t, false, [], []⟩
  else
    let key := "record_" ++ env.timestamp
    let launch : Launch :=
      ⟨key, some (recordOutputPath cfg.recordingsDir env.timestamp uid),
        some (durationStr duration), env.newPid⟩
    let t2 := insertProc t key
      ⟨env.newPid, if env.recordAlive then ProcStatus.running else ProcStatus.exited env.exitCode⟩
    if env.recordAlive then ⟨t2, true, [], [launch]⟩
    else ⟨eraseProc t2 key, false, [], [launch]⟩

/-- Handler `_handle_start_stream`: resolve the stream key (failing fast
when it is falsy), stop any existing `live_stream` occupant, reject
non-YouTube platforms, check ffmpeg, probe the RTSP feed, spawn the
streaming process under the fixed `live_stream` slot, wait a 3s settle
window, and keep the entry only if the process is still alive. -/
def handleStartStream (env : Env) (cfg : Config) (msg : CommandMsg) (t : Table) : HRes :=
  let m := msg.meta.getD defaultMeta
  let platform := m.platform.getD "youtube"
  let sk := resolveStreamKey cfg m
  if !keyTruthy sk then ⟨t, false, [], []⟩
  else
    let stopped := if containsKey t "live_stream" then stopStreamOp t else (t, true, [])
    let t1 := stopped.1
    let killed := stopped.2.2
    if platform ≠ "youtube" then ⟨t1, false, killed, []⟩
    else if !env.ffmpegAvailable then ⟨t1, false, killed, []⟩
    else if !env.rtspOk then ⟨t1, false, killed, []⟩
    else
      let launch : Launch := ⟨"live_stream", none, none, env.newPid⟩
      let t2 := insertProc t1 "live_stream"
        ⟨env.newPid, if env.streamAlive then ProcStatus.running else ProcStatus.exited env.exitCode⟩
      if env.streamAlive then ⟨t2, true, killed, [launch]⟩
      else ⟨eraseProc t2 "live_stream", false, killed, [launch]⟩

/-- Handler `_handle_test_record`: spawn the surrogate bash loop writing
`test_record_<ts>_<issuer>.txt` in the recordings directory, register it
under `test_record_<ts>`, and return `True`. -/
def handleTestRecord (env : Env) (cfg : Config) (msg : CommandMsg) (t : Table) : HRes :=
  let uid := msg.issuer.getD "unknown"
  let key := "test_record_" ++ env.timestamp
  ⟨insertProc t key ⟨env.newPid, ProcStatus.running⟩, true, [],
    [⟨key, some (testRecordOutputPath cfg.recordingsDir env.timestamp uid), none, env.newPid⟩]⟩

/-- Handler `_handle_test_stream`: spawn the surrogate bash loop writing
`test_stream_<ts>_<platform>.log` under `<recordings_dir>/logs`, register
it under `test_stream`, and return `True`. -/
def handleTestStream (env : Env) (cfg : Config) (msg : CommandMsg) (t : Table) : HRes :=
  let platform := (msg.meta.getD defaultMeta).platform.getD "youtube"
  ⟨insertProc t "test_stream" ⟨env.newPid, ProcStatus.running⟩, true, [],
    [⟨"test_stream", some (testStreamLogPath cfg.recordingsDir env.timestamp platform), none,
      env.newPid⟩]⟩

/-- The `if/elif` verb dispatch of `handle_message`; an unknown (or
absent) verb logs a warning and leaves `success = False`. -/
def dispatchCommand (env : Env) (cfg : Config) (msg : CommandMsg) (t : Table) : HRes :=
  match msg.cmd with
  | some "START_RECORD" => handleStartRecord env cfg msg t
  | some "STOP_RECORD" => handleStopRecord t
  | some "START_STREAM" => handleStartStream env cfg msg t
  | some "STOP_STREAM" => handleStopStream t
  | some "TEST_RECORD" => handleTestRecord env cfg msg t
  | some "TEST_STREAM" => handleTestStream env cfg msg t
  | _ => ⟨t, false, [], []⟩

/-- An acknowledgment frame `{commandId, success, error?}`. -/
structure Ack where
  commandId : String
  success : Bool
  error : Option String
deriving DecidableEq, Repr

/-- Result of `handle_message`: new table, acknowledgments sent on the
channel, pids terminated, processes spawned, and whether a malformed
payload was logged and ignored. -/
structure MRes where
  table : Table
  acks : List Ack
  killed : List Nat
  launched : List Launch
  loggedMalformed : Bool
deriving DecidableEq, Repr

/-- An inbound websocket frame: either a payload `json.loads` rejects,
or a parsed command frame. -/
inductive Inbound where
  | malformed (raw : String)
  | frame (msg : CommandMsg)
deriving DecidableEq, Repr

/-- The exception classes that can cross the body of
`handle_message`. -/
inductive PyErr where
  | jsonDecodeError
deriving DecidableEq, Repr

/-- Whether an `Except` value is a normal result. -/
def exceptOk {ε α : Type} : Except ε α → Bool
  | Except.ok _ => true
  | Except.error _ => false

/-- The string interpolated into the failure acknowledgment
`f"Failed to execute command: {command}"` (Python prints `None` for an
absent verb). -/
def cmdText : Option String → String
  | some c => c
  | none => "None"

/-- Body of `handle_message` before its `except` clauses: `json.loads`
raises on a malformed payload; otherwise the verb is dispatched and, if
`command_id` is truthy, exactly one acknowledgment carrying it is sent,
with an error text attached on failure. -/
def handleMessageExc (env : Env) (cfg : Config) (t : Table) : Inbound → Except PyErr MRes
  | Inbound.malformed _ => Except.error PyErr.jsonDecodeError
  | Inbound.frame msg =>
    let r := dispatchCommand env cfg msg t
    let acks : List Ack :=
      match msg.commandId with
      | some cid =>
        if cid ≠ "" then
          [⟨cid, r.ok, if r.ok then none else some ("Failed to execute command: " ++ cmdText msg.cmd)⟩]
        else []
      | none => []
    Except.ok ⟨r.table, acks, r.killed, r.launched, false⟩

/-- `handle_message` with its `except json.JSONDecodeError` /
`except Exception` clauses: a raised decode error is logged and ignored,
leaving the table untouched and sending nothing. -/
def handleMessage (env : Env) (cfg : Config) (t : Table) (i : Inbound) : MRes :=
  match handleMessageExc env cfg t i with
  | Except.ok r => r
  | Except.error _ => ⟨t, [], [], [], true⟩

/-- Outcome of one `connect()` call: the returned value (`none` models
the implicit `None` when the retry loop ends without `return`), the
number of connection attempts made, and the list of sleep delays taken
between attempts. -/
def connectAux (outcomes : Nat → Bool) (delay : Nat) : Nat → Nat → Option Bool × Nat × List Nat
  | _, 0 => (none, 0, [])
  | attempt, remaining + 1 =>
    if outcomes attempt then (some true, 1, [])
    else if remaining = 0 then (some false, 1, [])
    else
      let r := connectAux outcomes delay (attempt + 1) remaining
      (r.1, r.2.1 + 1, delay :: r.2.2)

/-- The `connect()` retry loop `for attempt in range(max_retries)`:
`outcomes i` tells whether attempt `i` succeeds (an exception caught by
the `except` clause counts as failure). -/
def connectLoop (outcomes : Nat → Bool) (delay maxRetries : Nat) : Option Bool × Nat × List Nat :=
  connectAux outcomes delay 0 maxRetries

/-- What the monitor logs once the process it watches has ended. -/
inductive MonitorLog where
  | loggedSuccess
  | loggedFailure
  | loggedNothing
deriving DecidableEq, Repr

/-- How the monitor loop of `_monitor_ffmpeg_process` ended: the process
exited on its own with a return code, or the loop broke out on an
I/O-error marker while the process was still running (`returncode` then
still `None`). -/
inductive MonitorEnd where
  | natural (code : Int)
  | ioBreak
deriving DecidableEq, Repr

/-- Environment of the monitor epilogue: the remaining stderr collected
by `process.communicate(timeout=5)` and whether that call timed out. -/
structure MonitorEnv where
  finalStderr : String
  cleanupTimedOut : Bool
deriving DecidableEq, Repr

/-- Epilogue of `_monitor_ffmpeg_process` after its polling loop: a
non-zero (or absent) return code enters the failure branch, which logs a
failure only when the cleanup timed out or the remaining stderr is
non-empty; a zero return code logs success; in both cases the table
entry is deleted if present. -/
def monitorFfmpeg (menv : MonitorEnv) (ending : MonitorEnd) (key : String) (t : Table) :
    Table × MonitorLog :=
  let code : Option Int :=
    match ending with
    | MonitorEnd.natural c => some c
    | MonitorEnd.ioBreak => none
  let logged :=
    if code ≠ some 0 then
      if menv.cleanupTimedOut then MonitorLog.loggedFailure
      else if menv.finalStderr ≠ "" then MonitorLog.loggedFailure
      else MonitorLog.loggedNothing
    else MonitorLog.loggedSuccess
  (eraseProc t key, logged)

/-- The capture-file naming contract of the spec:
`<role>_<timestamp>_<issuer>.<ext>`. -/
def capturePattern (name ts issuer : String) : Prop :=
  ∃ role ext, name = role ++ "_" ++ ts ++ "_" ++ issuer ++ "." ++ ext

/-- A path lies directly under the `logs` subdirectory of `dir`. -/
def underLogs (dir : String) (path : List String) : Prop :=
  ∃ f, path = [dir, "logs", f]

/-! ### Process-table lemmas -/

lemma wf_eraseProc (t : Table) (k : String) (h : wfTable t) : wfTable (eraseProc t k) :=
  List.Nodup.sublist (List.Sublist.map Prod.fst (List.filter_sublist t)) h

lemma not_mem_keys_of_not_contains (t : Table) (k : String) (h : containsKey t k = false) :
    k ∉ tableKeys t := by
  induction t with
  | nil => simp [tableKeys]
  | cons kp rest ih =>
    simp only [containsKey, lookupProc] at h
    by_cases hk : kp.1 = k
    · simp [hk] at h
    · simp only [if_neg hk] at h
      have h2 := ih h
      simp only [tableKeys, List.map_cons, List.mem_cons]
      rintro (h1 | h1)
      · exact hk h1.symm
      · exact h2 h1

lemma tableKeys_insertProc (t : Table) (k : String) (p : Proc) :
    tableKeys (insertProc t k p) =
      if containsKey t k then tableKeys t else tableKeys t ++ [k] := by
  unfold insertProc
  split
  · simp only [tableKeys, List.map_map]
    apply List.map_congr_left
    intro kp _
    by_cases hk : kp.1 = k
    · simp [hk]
    · simp [hk]
  · simp [tableKeys]

lemma wf_insertProc (t : Table) (k : String) (p : Proc) (h : wfTable t) :
    wfTable (insertProc t k p) := by
  unfold wfTable
  rw [tableKeys_insertProc]
  by_cases hc : containsKey t k
  · simpa [hc] using h
  · have hnm := not_mem_keys_of_not_contains t k (by simpa using hc)
    rw [if_neg hc]
    simp only [List.nodup_append, List.nodup_cons, List.not_mem_nil, not_false_iff,
      List.nodup_nil, and_true, true_and, List.disjoint_singleton]
    exact ⟨h, by simpa using hnm⟩

lemma countKeyRunning_le_one (t : Table) (k : String) (h : wfTable t) :
    countKeyRunning t k ≤ 1 := by
  have h1 : countKeyRunning t k = t.countP (fun kp => kp.1 == k && kp.2.isRunning) := by
    simp [countKeyRunning, List.countP_eq_length_filter]
  have h2 : t.countP (fun kp => kp.1 == k && kp.2.isRunning) ≤
      t.countP (fun kp => kp.1 == k) := by
    apply List.countP_mono_left
    intro kp _ hkp
    exact (Bool.and_eq_true ..).mp hkp |>.1
  have h3 : t.countP (fun kp => kp.1 == k) = (tableKeys t).count k := by
    simp only [tableKeys, List.count, List.countP_map]
    rfl
  have h4 : (tableKeys t).count k ≤ 1 := List.nodup_iff_count_le_one.mp h k
  omega

lemma wf_stopStreamOp (t : Table) (h : wfTable t) : wfTable (stopStreamOp t).1 := by
  unfold stopStreamOp
  cases hl : lookupProc t "live_stream" with
  | none => simpa using h
  | some p =>
    by_cases hr : p.isRunning
    · simp only [hr, if_true]
      exact wf_eraseProc t _ h
    · simp only [hr, Bool.false_eq_true, if_false]
      simpa using h

lemma wf_handleStartStream (env : Env) (cfg : Config) (msg : CommandMsg) (t : Table)
    (h : wfTable t) : wfTable (handleStartStream env cfg msg t).table := by
  have ht1 : wfTable (if containsKey t "live_stream" then stopStreamOp t
      else (t, true, ([] : List Nat))).1 := by
    split
    · exact wf_stopStreamOp t h
    · exact h
  simp only [handleStartStream]
  split
  · exact h
  · split
    · exact ht1
    · split
      · exact ht1
      · split
        · exact ht1
        · split
          · exact wf_insertProc _ _ _ ht1
          · exact wf_eraseProc _ _ (wf_insertProc _ _ _ ht1)

lemma stopStreamOp_of_running (t : Table) (p : Proc)
    (hl : lookupProc t "live_stream" = some p) (hr : p.isRunning = true) :
    stopStreamOp t = (eraseProc t "live_stream", true, [p.pid]) := by
  unfold stopStreamOp
  rw [hl]
  simp [hr]

/-! ### Claim theorems -/

/-- C2: at most one process ever occupies the reserved `live_stream`
broadcast slot (the table stays a well-formed dict with at most one
running entry under that key), and when a broadcast is started while an
occupant is running and the stream key resolves truthy, the prior
occupant is exactly the process the handler terminates. -/
theorem broadcast_slot_invariant (env : Env) (cfg : Config) (msg : CommandMsg) (t : Table)
    (hwf : wfTable t) :
    wfTable (handleStartStream env cfg msg t).table ∧
    countKeyRunning (handleStartStream env cfg msg t).table "live_stream" ≤ 1 ∧
    (∀ p, lookupProc t "live_stream" = some p → p.isRunning = true →
      keyTruthy (resolveStreamKey cfg (msg.meta.getD defaultMeta)) = true →
      (handleStartStream env cfg msg t).killed = [p.pid]) := by
  have hwf2 := wf_handleStartStream env cfg msg t hwf
  refine ⟨hwf2, countKeyRunning_le_one _ _ hwf2, ?_⟩
  intro p hl hr hk
  have hc : containsKey t "live_stream" = true := by
    simp [containsKey, hl]
  have hs := stopStreamOp_of_running t p hl hr
  simp only [handleStartStream, hk, Bool.not_true, Bool.false_eq_true, if_false, hc, if_true, hs]
  split
  · rfl
  · split
    · rfl
    · split
      · rfl
      · split
        · rfl
        · rfl

/-- Witness for C2 at a concrete state with a running occupant (pid 3):
the new table keeps at most one broadcast entry and the occupant was the
one terminated. -/
theorem broadcast_slot_invariant_witness :
    countKeyRunning (handleStartStream ⟨true, true, "T", 7, true, true, 0⟩
      ⟨"recordings", some "defk", "rtsp://cam"⟩
      ⟨some "c1", some "START_STREAM", some "u1", some ⟨none, none, none, some "k2"⟩⟩
      [("live_stream", ⟨3, ProcStatus.running⟩)]).table "live_stream" ≤ 1 ∧
    (handleStartStream ⟨true, true, "T", 7, true, true, 0⟩
      ⟨"recordings", some "defk", "rtsp://cam"⟩
      ⟨some "c1", some "START_STREAM", some "u1", some ⟨none, none, none, some "k2"⟩⟩
      [("live_stream", ⟨3, ProcStatus.running⟩)]).killed = [3] :=
  ⟨(broadcast_slot_invariant _ _ _ _ (by decide)).2.1,
   (broadcast_slot_invariant _ _ _ _ (by decide)).2.2 ⟨3, ProcStatus.running⟩ (by decide)
     (by decide) (by decide)⟩

/-- C1 (amended): for every command frame whose `commandId` is present
and non-empty (Python-truthy), `handle_message` emits exactly one
acknowledgment, and it carries that command's own correlation id. -/
theorem ack_exactly_one_for_truthy_cid (env : Env) (cfg : Config) (t : Table)
    (m : CommandMsg) (cid : String) (h1 : m.commandId = some cid) (h2 : cid ≠ "") :
    ∃ b e, (handleMessage env cfg t (Inbound.frame m)).acks = [⟨cid, b, e⟩] := by
  refine ⟨(dispatchCommand env cfg m t).ok, ?_, ?_⟩
  · exact if (dispatchCommand env cfg m t).ok then none
      else some ("Failed to execute command: " ++ cmdText m.cmd)
  · simp [handleMessage, handleMessageExc, h1, h2]

/-- Witness for C1 (amended) at a concrete STOP_STREAM frame. -/
theorem ack_exactly_one_witness :
    ∃ b e, (handleMessage ⟨true, true, "T", 1, true, true, 0⟩ ⟨"recordings", some "k", "r"⟩ []
      (Inbound.frame ⟨some "c1", some "STOP_STREAM", some "u1", none⟩)).acks = [⟨"c1", b, e⟩] :=
  ack_exactly_one_for_truthy_cid _ _ _ _ "c1" rfl (by decide)

/-- Counterexample to C1 as stated: a command frame whose `commandId`
field is present but bound to the empty string (Python-falsy) is
dispatched while the connection is active, yet `handle_message` emits
zero acknowledgments, not exactly one. -/
theorem ack_skipped_for_empty_cid :
    (handleMessage ⟨true, true, "T", 1, true, true, 0⟩ ⟨"recordings", some "k", "r"⟩ []
      (Inbound.frame ⟨some "", some "STOP_STREAM", some "u1", none⟩)).acks = [] := by
  decide

lemma connectAux_all_fail (outcomes : Nat → Bool) (delay : Nat)
    (h : ∀ i, outcomes i = false) :
    ∀ remaining attempt, 1 ≤ remaining →
      connectAux outcomes delay attempt remaining =
        (some false, remaining, List.replicate (remaining - 1) delay) := by
  intro remaining
  induction remaining with
  | zero => intro attempt hr; omega
  | succ n ih =>
    intro attempt _
    cases n with
    | zero => simp [connectAux, h attempt]
    | succ m =>
      rw [show connectAux outcomes delay attempt (m + 1 + 1) =
          (let r := connectAux outcomes delay (attempt + 1) (m + 1)
           (r.1, r.2.1 + 1, delay :: r.2.2)) by
        simp [connectAux, h attempt]]
      rw [ih (attempt + 1) (by omega)]
      simp [List.replicate]

/-- C3: when every attempt fails, the `connect()` retry loop performs
exactly `maxRetries` attempts, sleeps the fixed delay between
consecutive attempts (`maxRetries - 1` sleeps), and returns `False` —
no exception escapes, since every attempt's failure is absorbed by the
loop. -/
theorem connect_stops_after_max_retries (outcomes : Nat → Bool) (delay maxRetries : Nat)
    (h : ∀ i, outcomes i = false) (hm : 1 ≤ maxRetries) :
    connectLoop outcomes delay maxRetries =
      (some false, maxRetries, List.replicate (maxRetries - 1) delay) :=
  connectAux_all_fail outcomes delay h maxRetries 0 hm

/-- Witness for C3 with `max_retries = 3` and `retry_delay = 5`. -/
theorem connect_stops_witness :
    connectLoop (fun _ => false) 5 3 = (some false, 3, [5, 5]) :=
  connect_stops_after_max_retries (fun _ => false) 5 3 (fun _ => rfl) (by decide)

/-- C4: a START_STREAM whose stream key is empty or missing, with no
(non-empty) configured default, fails fast: the handler returns `False`
without touching the table, terminating anything, or spawning anything,
and the acknowledgment for a truthy command id is `success = false`
with an error text. -/
theorem missing_stream_key_fails_fast (env : Env) (cfg : Config) (t : Table) (m : CommandMsg)
    (hk : (m.meta.getD defaultMeta).streamKey = none ∨
          (m.meta.getD defaultMeta).streamKey = some "")
    (hd : cfg.youtubeStreamKey = none ∨ cfg.youtubeStreamKey = some "") :
    handleStartStream env cfg m t = ⟨t, false, [], []⟩ ∧
    (∀ cid, m.cmd = some "START_STREAM" → m.commandId = some cid → cid ≠ "" →
      (handleMessage env cfg t (Inbound.frame m)).acks =
        [⟨cid, false, some "Failed to execute command: START_STREAM"⟩] ∧
      (handleMessage env cfg t (Inbound.frame m)).table = t ∧
      (handleMessage env cfg t (Inbound.frame m)).launched = []) := by
  have hfalsy : keyTruthy (resolveStreamKey cfg (m.meta.getD defaultMeta)) = false := by
    unfold resolveStreamKey
    rcases hk with hk | hk <;> rw [hk]
    · rcases hd with hd | hd <;> rw [hd] <;> rfl
    · rfl
  have hmain : handleStartStream env cfg m t = ⟨t, false, [], []⟩ := by
    simp [handleStartStream, hfalsy]
  refine ⟨hmain, ?_⟩
  intro cid hcmd hcid hne
  have hdisp : dispatchCommand env cfg m t = ⟨t, false, [], []⟩ := by
    simp [dispatchCommand, hcmd, hmain]
  simp [handleMessage, handleMessageExc, hdisp, hcid, hne, cmdText, hcmd]

/-- Witness for C4: missing key and no configured default. -/
theorem missing_stream_key_witness :
    handleStartStream ⟨true, true, "T", 7, true, true, 0⟩ ⟨"recordings", none, "rtsp://cam"⟩
      ⟨some "c9", some "START_STREAM", some "u1", some ⟨none, none, none, none⟩⟩ [] =
      ⟨[], false, [], []⟩ ∧
    (handleMessage ⟨true, true, "T", 7, true, true, 0⟩ ⟨"recordings", none, "rtsp://cam"⟩ []
      (Inbound.frame ⟨some "c9", some "START_STREAM", some "u1",
        some ⟨none, none, none, none⟩⟩)).acks =
      [⟨"c9", false, some "Failed to execute command: START_STREAM"⟩] :=
  ⟨(missing_stream_key_fails_fast ⟨true, true, "T", 7, true, true, 0⟩
      ⟨"recordings", none, "rtsp://cam"⟩ []
      ⟨some "c9", some "START_STREAM", some "u1", some ⟨none, none, none, none⟩⟩
      (Or.inl rfl) (Or.inl rfl)).1,
   ((missing_stream_key_fails_fast ⟨true, true, "T", 7, true, true, 0⟩
      ⟨"recordings", none, "rtsp://cam"⟩ []
      ⟨some "c9", some "START_STREAM", some "u1", some ⟨none, none, none, none⟩⟩
      (Or.inl rfl) (Or.inl rfl)).2 "c9" rfl rfl (by decide)).1⟩

/-- C5: stopping captures or the broadcast when no matching process is
running is a no-op success — table unchanged, nothing terminated — and
stays a no-op under arbitrarily many repetitions. -/
theorem stop_nothing_running_noop (t : Table)
    (h1 : ∀ kp ∈ t, (strStartsWith kp.1 "record_" && kp.2.isRunning) = false)
    (h2 : ∀ p, lookupProc t "live_stream" = some p → p.isRunning = false) :
    handleStopRecord t = ⟨t, true, [], []⟩ ∧
    handleStopStream t = ⟨t, true, [], []⟩ ∧
    (∀ n, (fun s => (handleStopRecord s).table)^[n] t = t) ∧
    (∀ n, (fun s => (handleStopStream s).table)^[n] t = t) := by
  have hfilter : t.filter (fun kp => !(strStartsWith kp.1 "record_" && kp.2.isRunning)) = t := by
    rw [List.filter_eq_self]
    intro kp hkp
    rw [h1 kp hkp]
    rfl
  have hvict : t.filter (fun kp => strStartsWith kp.1 "record_" && kp.2.isRunning) = [] := by
    rw [List.filter_eq_nil_iff]
    intro kp hkp
    simp [h1 kp hkp]
  have hr : stopRecordOp t = (t, true, []) := by
    simp only [stopRecordOp]
    rw [hfilter, hvict]
    rfl
  have hs : stopStreamOp t = (t, true, []) := by
    unfold stopStreamOp
    cases hl : lookupProc t "live_stream" with
    | none => rfl
    | some p => simp [h2 p hl]
  have e1 : handleStopRecord t = ⟨t, true, [], []⟩ := by
    simp [handleStopRecord, hr]
  have e2 : handleStopStream t = ⟨t, true, [], []⟩ := by
    simp [handleStopStream, hs]
  refine ⟨e1, e2, ?_, ?_⟩
  · intro n
    apply Function.iterate_fixed
    rw [e1]
  · intro n
    apply Function.iterate_fixed
    rw [e2]

/-- Witness for C5 at a table containing a dead capture entry, a dead
broadcast occupant and an unrelated running diagnostic entry. -/
theorem stop_nothing_running_witness :
    handleStopRecord [("test_record_x", ⟨5, ProcStatus.running⟩),
        ("record_y", ⟨6, ProcStatus.exited 0⟩), ("live_stream", ⟨3, ProcStatus.exited 1⟩)] =
      ⟨[("test_record_x", ⟨5, ProcStatus.running⟩), ("record_y", ⟨6, ProcStatus.exited 0⟩),
        ("live_stream", ⟨3, ProcStatus.exited 1⟩)], true, [], []⟩ ∧
    handleStopStream [("test_record_x", ⟨5, ProcStatus.running⟩),
        ("record_y", ⟨6, ProcStatus.exited 0⟩), ("live_stream", ⟨3, ProcStatus.exited 1⟩)] =
      ⟨[("test_record_x", ⟨5, ProcStatus.running⟩), ("record_y", ⟨6, ProcStatus.exited 0⟩),
        ("live_stream", ⟨3, ProcStatus.exited 1⟩)], true, [], []⟩ :=
  ⟨(stop_nothing_running_noop _ (by decide) (by decide)).1,
   (stop_nothing_running_noop _ (by decide) (by decide)).2.1⟩

/-- Counterexample to C6 as stated: a monitored process ends on its own
with the non-zero exit code 1, but because the remaining stderr captured
at cleanup is empty (and cleanup did not time out) the monitor logs no
failure at all — it only removes the entry. -/
theorem monitor_silent_nonzero_exit :
    (monitorFfmpeg ⟨"", false⟩ (MonitorEnd.natural 1) "record_T"
      [("record_T", ⟨9, ProcStatus.exited 1⟩)]).2 ≠ MonitorLog.loggedFailure ∧
    (monitorFfmpeg ⟨"", false⟩ (MonitorEnd.natural 1) "record_T"
      [("record_T", ⟨9, ProcStatus.exited 1⟩)]).1 = [] := by
  decide

/-- C6 (amended): for a monitored process ending on its own, exit code 0
is logged as success and never as failure; a non-zero exit code logs a
failure exactly when the cleanup read timed out or the remaining stderr
is non-empty; in every case the monitor removes the process's table
entry. -/
theorem monitor_exit_code_classification (menv : MonitorEnv) (code : Int) (key : String)
    (t : Table) :
    (monitorFfmpeg menv (MonitorEnd.natural code) key t).1 = eraseProc t key ∧
    (code = 0 →
      (monitorFfmpeg menv (MonitorEnd.natural code) key t).2 = MonitorLog.loggedSuccess) ∧
    (code ≠ 0 →
      ((monitorFfmpeg menv (MonitorEnd.natural code) key t).2 = MonitorLog.loggedFailure ↔
        (menv.cleanupTimedOut = true ∨ menv.finalStderr ≠ ""))) := by
  refine ⟨rfl, ?_, ?_⟩
  · intro h0
    simp [monitorFfmpeg, h0]
  · intro hne
    have hne2 : ¬((some code : Option Int) = some 0) := by simpa using hne
    simp only [monitorFfmpeg, ne_eq, hne2, not_false_iff, if_true]
    by_cases ht : menv.cleanupTimedOut <;> by_cases hs : menv.finalStderr = "" <;>
      simp [ht, hs]

/-- Witness for C6 (amended) at exit code 2 with non-empty remaining
stderr: failure logged and entry removed. -/
theorem monitor_exit_code_witness :
    (monitorFfmpeg ⟨"boom", false⟩ (MonitorEnd.natural 2) "record_T"
      [("record_T", ⟨9, ProcStatus.exited 2⟩)]).1 =
        eraseProc [("record_T", ⟨9, ProcStatus.exited 2⟩)] "record_T" ∧
    (monitorFfmpeg ⟨"boom", false⟩ (MonitorEnd.natural 2) "record_T"
      [("record_T", ⟨9, ProcStatus.exited 2⟩)]).2 = MonitorLog.loggedFailure :=
  ⟨(monitor_exit_code_classification ⟨"boom", false⟩ 2 "record_T" _).1,
   ((monitor_exit_code_classification ⟨"boom", false⟩ 2 "record_T"
      [("record_T", ⟨9, ProcStatus.exited 2⟩)]).2.2 (by decide)).mpr (Or.inr (by decide))⟩

/-- C7: the body of `handle_message` raises exactly on malformed
payloads, and the surrounding handler converts that to a logged no-op —
table untouched, nothing sent, nothing spawned — while every parsed
frame is processed to a normal result; no error propagates to the
receive loop. -/
theorem malformed_payload_never_fatal (env : Env) (cfg : Config) (t : Table) :
    (∀ raw, handleMessageExc env cfg t (Inbound.malformed raw) =
        Except.error PyErr.jsonDecodeError ∧
      handleMessage env cfg t (Inbound.malformed raw) = ⟨t, [], [], [], true⟩) ∧
    (∀ m, exceptOk (handleMessageExc env cfg t (Inbound.frame m)) = true) :=
  ⟨fun _ => ⟨rfl, rfl⟩, fun _ => rfl⟩

/-- C8: the seconds→HH:MM:SS conversion used for the encoder's `-t`
argument is exact: `3600*h + 60*m + s` recovers the duration and the
minute and second components are below 60. -/
theorem duration_conversion_exact (d : Nat) :
    3600 * (durationHMS d).1 + 60 * (durationHMS d).2.1 + (durationHMS d).2.2 = d ∧
    (durationHMS d).2.1 < 60 ∧ (durationHMS d).2.2 < 60 ∧
    durationStr d = pad2 (durationHMS d).1 ++ ":" ++ pad2 (durationHMS d).2.1 ++ ":" ++
      pad2 (durationHMS d).2.2 := by
  refine ⟨?_, ?_, ?_, rfl⟩ <;> simp only [durationHMS] <;> omega

/-- Counterexample to C9 as stated: the diagnostic-capture (TEST_RECORD)
file is written directly into the output directory, not under
`<output_dir>/logs/`. -/
theorem diagnostic_capture_not_under_logs :
    ¬ underLogs "recordings" (testRecordOutputPath "recordings" "20250101_120000" "u1") := by
  rintro ⟨f, h⟩
  simp only [testRecordOutputPath, testRecordFileName, underLogs, List.cons.injEq,
    List.nil_eq] at h
  exact absurd h.2.1 (by decide)

/-- C9 (amended): capture and diagnostic-capture output files are
written directly in the output directory under the
`<role>_<timestamp>_<issuer>.<ext>` pattern, while the
diagnostic-broadcast (TEST_STREAM) log file is the one written under
`<output_dir>/logs/`; the handlers launch their processes with exactly
these paths. -/
theorem file_layout_contract (dir ts uid platform : String) (env : Env) (cfg : Config)
    (msg : CommandMsg) (t : Table) :
    capturePattern (recordFileName ts uid) ts uid ∧
    capturePattern (testRecordFileName ts uid) ts uid ∧
    recordOutputPath dir ts uid = [dir, recordFileName ts uid] ∧
    testRecordOutputPath dir ts uid = [dir, testRecordFileName ts uid] ∧
    underLogs dir (testStreamLogPath dir ts platform) ∧
    ((handleStartRecord env cfg msg t).launched.map Launch.outputPath =
      if env.ffmpegAvailable && env.rtspOk then
        [some (recordOutputPath cfg.recordingsDir env.timestamp (msg.issuer.getD "unknown"))]
      else []) ∧
    (handleTestRecord env cfg msg t).launched.map Launch.outputPath =
      [some (testRecordOutputPath cfg.recordingsDir env.timestamp (msg.issuer.getD "unknown"))] ∧
    (handleTestStream env cfg msg t).launched.map Launch.outputPath =
      [some (testStreamLogPath cfg.recordingsDir env.timestamp
        ((msg.meta.getD defaultMeta).platform.getD "youtube"))] := by
  refine ⟨?_, ?_, rfl, rfl, ⟨testStreamFileName ts platform, rfl⟩, ?_, rfl, rfl⟩
  · refine ⟨"record", "mp4", ?_⟩
    unfold recordFileName
    rw [show ("record_" : String) = "record" ++ "_" by decide,
      show (".mp4" : String) = "." ++ "mp4" by decide]
    simp [String.append_assoc]
  · refine ⟨"test_record", "txt", ?_⟩
    unfold testRecordFileName
    rw [show ("test_record_" : String) = "test_record" ++ "_" by decide,
      show (".txt" : String) = "." ++ "txt" by decide]
    simp [String.append_assoc]
  · by_cases hf : env.ffmpegAvailable <;> by_cases hr : env.rtspOk <;>
      by_cases ha : env.recordAlive <;> simp [handleStartRecord, hf, hr, ha]

/-- C10: when the START_STREAM `meta` binds `stream_key` to the empty
string, the configured default key is not consulted (the resolution
yields the empty string even though a non-empty default is configured),
so the handler fails and registers no process. -/
theorem empty_meta_key_ignores_default (env : Env) (cfg : Config) (t : Table)
    (m : CommandMsg) (mt : Meta) (k : String)
    (h1 : m.meta = some mt) (h2 : mt.streamKey = some "")
    (h3 : cfg.youtubeStreamKey = some k) (h4 : k ≠ "") :
    resolveStreamKey cfg mt = some "" ∧
    handleStartStream env cfg m t = ⟨t, false, [], []⟩ := by
  have hres : resolveStreamKey cfg mt = some "" := by
    unfold resolveStreamKey
    rw [h2]
  refine ⟨hres, ?_⟩
  simp [handleStartStream, h1, hres, keyTruthy]

/-- Witness for C10 with a non-empty configured default key. -/
theorem empty_meta_key_witness :
    resolveStreamKey ⟨"recordings", some "configured-key", "rtsp://cam"⟩
        ⟨none, none, none, some ""⟩ = some "" ∧
    handleStartStream ⟨true, true, "T", 7, true, true, 0⟩
        ⟨"recordings", some "configured-key", "rtsp://cam"⟩
        ⟨some "c2", some "START_STREAM", some "u1", some ⟨none, none, none, some ""⟩⟩ [] =
      ⟨[], false, [], []⟩ :=
  empty_meta_key_ignores_default ⟨true, true, "T", 7, true, true, 0⟩
    ⟨"recordings", some "configured-key", "rtsp://cam"⟩ []
    ⟨some "c2", some "START_STREAM", some "u1", some ⟨none, none, none, some ""⟩⟩
    ⟨none, none, none, some ""⟩ "configured-key" rfl rfl rfl (by decide)
